import Mathlib

set_option autoImplicit false

/-!
Verification of the article-view rendering core: a shallow embedding of the
rich-text formatter, the recursive block renderer, the heading extractor,
the diagram (mermaid) error handling, the scroll-spy state, the page
orchestrator, and the content-fetch service, each translated from the
corresponding source function, with theorems settling the stated properties.

The repository holds two near-duplicate variants of the article view
(`src/components/ArticleView.tsx`, the richer one, and an unnamed earlier
variant); following the specification's design note the richer variant is
the one embedded here.
-/

/-! ## Rich-text data model (`renderRichText` input shape) -/

/-- The annotation set of a rich-text span: `text.annotations` in the
Notion block payload (src/components/ArticleView.tsx line 48). -/
structure Annotations where
  bold : Bool
  italic : Bool
  strikethrough : Bool
  underline : Bool
  code : Bool
  color : String
deriving Repr, DecidableEq

/-- The `text` payload of a rich-text span; its `content` field is the
rendered character data (ArticleView.tsx line 56). -/
structure TextContent where
  content : String
deriving Repr, DecidableEq

/-- One rich-text span: annotations, the `text` payload, the `plain_text`
projection used by the plain-text paths, and an optional hyperlink. -/
structure RichTextSpan where
  annotations : Annotations
  text : TextContent
  plain_text : String
  href : Option String
deriving Repr, DecidableEq

/-- The inline CSS style object computed per span
(ArticleView.tsx lines 49-54). -/
structure SpanStyle where
  fontWeight : String
  fontStyle : String
  textDecoration : String
  color : String
deriving Repr, DecidableEq

/-- `const style = {...}` of `renderRichText` (ArticleView.tsx lines 49-54):
underline wins over strikethrough in the single `textDecoration` slot, and a
non-default color is passed through. -/
def spanStyle (annotations : Annotations) : SpanStyle :=
  { fontWeight := if annotations.bold then "700" else "inherit"
  , fontStyle := if annotations.italic then "italic" else "inherit"
  , textDecoration :=
      if annotations.underline then "underline"
      else if annotations.strikethrough then "line-through" else "none"
  , color := if annotations.color ≠ "default" then annotations.color else "inherit" }

/-- An inline view fragment produced by the rich-text formatter: a styled
`span`, a monospace `code` element, or an `a` element (with its `target` and
`rel` attributes and the span style) wrapping an inner fragment. -/
inductive InlineFragment where
  | span (style : SpanStyle) (content : String)
  | code (content : String)
  | link (hrefUrl target rel : String) (style : SpanStyle) (child : InlineFragment)
deriving Repr, DecidableEq

/-- The body of `renderRichText`'s `map` callback (ArticleView.tsx lines
47-72): build the styled `span`, replace it by a `code` element when the
`code` annotation is set, and wrap the result in a new-tab link when `href`
is present. -/
def renderSpan (t : RichTextSpan) : InlineFragment :=
  let style := spanStyle t.annotations
  let content := t.text.content
  let element :=
    if t.annotations.code then InlineFragment.code content
    else InlineFragment.span style content
  match t.href with
  | some url => InlineFragment.link url "_blank" "noopener noreferrer" style element
  | none => element

/-- `renderRichText` (ArticleView.tsx lines 45-73): `null` (no output) on an
absent span array, otherwise the element-wise map of `renderSpan`. -/
def renderRichText (richText : Option (List RichTextSpan)) : List InlineFragment :=
  match richText with
  | none => []
  | some l => l.map renderSpan

/-! ## Block data model -/

/-- A media reference as consumed by `getMediaUrl` (ArticleView.tsx lines
76-81): a payload whose `type` field is `external` (URL under
`external.url`), `file` (URL under `file.url`), or anything else. -/
inductive MediaData where
  | external (url : String)
  | file (url : String)
  | other
deriving Repr, DecidableEq

/-- `getMediaUrl` (ArticleView.tsx lines 76-81): resolve the URL of a media
payload, or the empty string when the shape is unrecognized. -/
def getMediaUrl : Option MediaData → String
  | none => ""
  | some (MediaData.external url) => url
  | some (MediaData.file url) => url
  | some MediaData.other => ""

/-- The kind-specific payload of a block (`block[block.type]`), as a closed
tagged union over the kinds the renderer's `switch` enumerates, with the
payload shape fixed by the kind (the data-model invariant). `unsupported`
stands for every unrecognized kind (the `default` branch). -/
inductive BlockContent where
  | paragraph (rich_text : List RichTextSpan)
  | heading_1 (rich_text : List RichTextSpan)
  | heading_2 (rich_text : List RichTextSpan)
  | heading_3 (rich_text : List RichTextSpan)
  | bulleted_list_item (rich_text : List RichTextSpan)
  | numbered_list_item (rich_text : List RichTextSpan)
  | to_do (rich_text : List RichTextSpan) (checked : Bool)
  | toggle (rich_text : List RichTextSpan)
  | column_list
  | column
  | code (language : String) (rich_text : List RichTextSpan)
  | image (media : Option MediaData) (caption : List RichTextSpan)
  | file (media : Option MediaData) (caption : List RichTextSpan)
  | video (media : Option MediaData) (caption : List RichTextSpan)
  | pdf (media : Option MediaData) (caption : List RichTextSpan)
  | quote (rich_text : List RichTextSpan)
  | callout (rich_text : List RichTextSpan) (iconEmoji : Option String) (color : Option String)
  | divider
  | synced_block
  | unsupported
deriving Repr, DecidableEq

/-- One node of the document tree: identifier, kind-specific payload, and
the (possibly empty, i.e. absent) ordered children. -/
inductive Block where
  | mk (id : String) (content : BlockContent) (children : List Block)

/-- The block's identifier. -/
def Block.id : Block → String
  | Block.mk i _ _ => i

/-- The block's kind-specific payload. -/
def Block.content : Block → BlockContent
  | Block.mk _ c _ => c

/-- The block's children (empty list = absent). -/
def Block.children : Block → List Block
  | Block.mk _ _ cs => cs

/-! ## Heading extractor (`headings` memo, ArticleView.tsx lines 260-279) -/

/-- `rich_text.map(t => t.plain_text).join('')`: the concatenated plain-text
content of a span sequence. -/
def plainTextJoin (spans : List RichTextSpan) : String :=
  String.join (spans.map (fun t => t.plain_text))

/-- One table-of-contents entry `{ id, text, level }`. -/
structure HeadingEntry where
  id : String
  text : String
  level : Nat
deriving Repr, DecidableEq

/-- The heading payload of a block kind whose name starts with `heading_`:
the numeric suffix (`parseInt(item.type.split('_')[1])`) and the rich-text
spans, or `none` for a non-heading kind. -/
def headingInfo : BlockContent → Option (Nat × List RichTextSpan)
  | BlockContent.heading_1 rich_text => some (1, rich_text)
  | BlockContent.heading_2 rich_text => some (2, rich_text)
  | BlockContent.heading_3 rich_text => some (3, rich_text)
  | _ => none

/-- The entries a single node contributes on its own (before its children):
the body of the `scan` callback (ArticleView.tsx lines 263-273) minus the
recursive call — a heading with non-empty joined text pushes one entry
(`if (text)`: the empty string is falsy), everything else pushes none. -/
def headingOwn (i : String) (c : BlockContent) : List HeadingEntry :=
  match headingInfo c with
  | some (lvl, rich_text) =>
    let text := plainTextJoin rich_text
    if text ≠ "" then [{ id := i, text := text, level := lvl }] else []
  | none => []

/-- The recursive `scan` of the `headings` memo (ArticleView.tsx lines
262-277): for each item in order, push the item's own heading entry (if
any), then scan its children. -/
def scanHeadings : List Block → List HeadingEntry
  | [] => []
  | Block.mk i c cs :: rest =>
    headingOwn i c ++ scanHeadings cs ++ scanHeadings rest

/-- The entries a single node would contribute under the specification's
words, which ask for one entry per heading block with no condition on the
text. Used only to compare `scanHeadings` against the spec. -/
def specHeadingOwn (i : String) (c : BlockContent) : List HeadingEntry :=
  match headingInfo c with
  | some (lvl, rich_text) => [{ id := i, text := plainTextJoin rich_text, level := lvl }]
  | none => []

/-- The specification's heading list, written from the spec's words (§4.4 /
§8): one entry for every heading block, in depth-first pre-order — a node's
own entry before its children's, children in their given order. Used only
to compare `scanHeadings` against the spec. -/
def specHeadingPreOrder : List Block → List HeadingEntry
  | [] => []
  | Block.mk i c cs :: rest =>
    specHeadingOwn i c ++ specHeadingPreOrder cs ++ specHeadingPreOrder rest

/-! ## Block renderer (`NotionBlockRenderer`, ArticleView.tsx lines 84-251) -/

/-- The view fragment a block renders to. Each constructor records the
semantic payload of the corresponding JSX branch: which data appears and how
children nest. `nullFrag` is React's `null` (no output). -/
inductive ViewFragment where
  | nullFrag
  | paragraph (inline : List InlineFragment) (children : List ViewFragment)
  | heading (level : Nat) (anchorId : String) (inline : List InlineFragment)
  | bulletedItem (inline : List InlineFragment) (children : List ViewFragment)
  | numberedItem (inline : List InlineFragment) (children : List ViewFragment)
  | todo (checked : Bool) (inline : List InlineFragment)
  | toggle (summary : List InlineFragment) (children : List ViewFragment)
  | columnList (columns : List ViewFragment)
  | column (children : List ViewFragment)
  | mermaidSlot (chart : String)
  | codeBlock (language : String) (text : String)
  | figure (url : String) (caption : List InlineFragment)
  | fileLink (url : String) (label : String)
  | quote (inline : List InlineFragment) (children : List ViewFragment)
  | divider
  | callout (iconEmoji : String) (bgColor : String) (inline : List InlineFragment)
      (children : List ViewFragment)
  | synced (children : List ViewFragment)

/-- The label of a file/video/pdf link: `data.caption?.[0]?.plain_text ||
"Document"` (ArticleView.tsx line 216) — the first caption span's plain
text, falling back to `"Document"` when absent or empty (falsy). -/
def fileLabel (caption : List RichTextSpan) : String :=
  match caption.head? with
  | some t => if t.plain_text ≠ "" then t.plain_text else "Document"
  | none => "Document"

/-- The callout background color key: `data.color?.split('_')[0] || 'blue'`
(ArticleView.tsx line 233). -/
def calloutBgColor (color : Option String) : String :=
  match color with
  | some col =>
    let head := (col.splitOn "_").headD ""
    if head ≠ "" then head else "blue"
  | none => "blue"

/-- The callout icon: `data.icon?.emoji || '💡'` (ArticleView.tsx line 240). -/
def calloutIcon (iconEmoji : Option String) : String :=
  match iconEmoji with
  | some e => if e ≠ "" then e else "💡"
  | none => "💡"

mutual

/-- `NotionBlockRenderer` (ArticleView.tsx lines 84-251): dispatch on the
kind discriminant; text-bearing kinds route their payload through
`renderRichText`, container kinds append their children's fragments in
order, a `code` block tagged with the diagram sentinel `mermaid` mounts the
diagram slot with the joined plain text, any other `code` block renders the
labeled monospace block, media kinds with an unresolvable (empty) URL and
unrecognized kinds render nothing. -/
def renderBlock : Block → ViewFragment
  | Block.mk i c cs =>
    match c with
    | BlockContent.paragraph rich_text =>
      ViewFragment.paragraph (renderRichText (some rich_text)) (renderBlockList cs)
    | BlockContent.heading_1 rich_text =>
      ViewFragment.heading 1 i (renderRichText (some rich_text))
    | BlockContent.heading_2 rich_text =>
      ViewFragment.heading 2 i (renderRichText (some rich_text))
    | BlockContent.heading_3 rich_text =>
      ViewFragment.heading 3 i (renderRichText (some rich_text))
    | BlockContent.bulleted_list_item rich_text =>
      ViewFragment.bulletedItem (renderRichText (some rich_text)) (renderBlockList cs)
    | BlockContent.numbered_list_item rich_text =>
      ViewFragment.numberedItem (renderRichText (some rich_text)) (renderBlockList cs)
    | BlockContent.to_do rich_text checked =>
      ViewFragment.todo checked (renderRichText (some rich_text))
    | BlockContent.toggle rich_text =>
      ViewFragment.toggle (renderRichText (some rich_text)) (renderBlockList cs)
    | BlockContent.column_list => ViewFragment.columnList (renderBlockList cs)
    | BlockContent.column => ViewFragment.column (renderBlockList cs)
    | BlockContent.code language rich_text =>
      if language = "mermaid" then ViewFragment.mermaidSlot (plainTextJoin rich_text)
      else ViewFragment.codeBlock language (plainTextJoin rich_text)
    | BlockContent.image media caption =>
      let imageUrl := getMediaUrl media
      if imageUrl = "" then ViewFragment.nullFrag
      else
        ViewFragment.figure imageUrl
          (if caption.length > 0 then renderRichText (some caption) else [])
    | BlockContent.file media caption =>
      let mediaUrl := getMediaUrl media
      if mediaUrl = "" then ViewFragment.nullFrag
      else ViewFragment.fileLink mediaUrl (fileLabel caption)
    | BlockContent.video media caption =>
      let mediaUrl := getMediaUrl media
      if mediaUrl = "" then ViewFragment.nullFrag
      else ViewFragment.fileLink mediaUrl (fileLabel caption)
    | BlockContent.pdf media caption =>
      let mediaUrl := getMediaUrl media
      if mediaUrl = "" then ViewFragment.nullFrag
      else ViewFragment.fileLink mediaUrl (fileLabel caption)
    | BlockContent.quote rich_text =>
      ViewFragment.quote (renderRichText (some rich_text)) (renderBlockList cs)
    | BlockContent.callout rich_text iconEmoji color =>
      ViewFragment.callout (calloutIcon iconEmoji) (calloutBgColor color)
        (renderRichText (some rich_text)) (renderBlockList cs)
    | BlockContent.divider => ViewFragment.divider
    | BlockContent.synced_block => ViewFragment.synced (renderBlockList cs)
    | BlockContent.unsupported => ViewFragment.nullFrag

/-- `renderChildren` / the inline `children?.map` calls: render each child
in its given order. -/
def renderBlockList : List Block → List ViewFragment
  | [] => []
  | b :: rest => renderBlock b :: renderBlockList rest

end

/-- The main content pass (ArticleView.tsx line 447):
`blocks.map(block => <NotionBlockRenderer block={block} />)`. -/
def renderBlocks (blocks : List Block) : List ViewFragment :=
  blocks.map renderBlock

/-! ## Diagram renderer (`Mermaid` component, ArticleView.tsx lines 14-42) -/

/-- What the `Mermaid` component's slot shows: the inline error notice
(`{error}` in the red div, line 40) or the svg container div (line 41). -/
inductive MermaidView where
  | notice (message : String)
  | svgContainer
deriving Repr, DecidableEq

/-- The error state after one compile attempt (`renderChart`, ArticleView.tsx
lines 19-36): `mermaid.render` succeeding clears the error (`setError(null)`),
and a thrown compile error is caught locally and sets the static notice text
(`setError("Diagram preview unavailable")`, line 33). -/
def mermaidCompileStep : Except String String → Option String
  | Except.ok _ => none
  | Except.error _ => some "Diagram preview unavailable"

/-- The component's render (ArticleView.tsx lines 40-41): the notice when an
error is set, the svg container otherwise. -/
def mermaidView : Option String → MermaidView
  | some e => MermaidView.notice e
  | none => MermaidView.svgContainer

/-! ## Scroll-spy / navigator (ArticleView.tsx lines 257, 300-328) -/

/-- A transition source of the `activeSection` state: an
`IntersectionObserver` callback entry (target id and its `isIntersecting`
flag, lines 302-307), or a click on a table-of-contents entry
(`scrollToHeading`, lines 320-328, with whether `getElementById` found the
anchor element). -/
inductive SpyEvent where
  | observed (targetId : String) (isIntersecting : Bool)
  | clicked (targetId : String) (elementExists : Bool)
deriving Repr, DecidableEq

/-- One transition of `activeSection`: an intersecting observer entry sets
its target id wholesale (`setActiveSection(entry.target.id)`); a click on an
existing anchor sets that id wholesale (`setActiveSection(id)`); anything
else leaves the state unchanged. -/
def spyStep (activeSection : String) : SpyEvent → String
  | SpyEvent.observed i inter => if inter then i else activeSection
  | SpyEvent.clicked i exists_ => if exists_ then i else activeSection

/-- The `activeSection` state after a sequence of transitions from an
initial state (`useState<string>("")` starts at `""`, line 257). -/
def spyRun (init : String) (events : List SpyEvent) : String :=
  events.foldl spyStep init

/-- The headings the sidebar shows as active: those whose id equals
`activeSection` (`activeSection === heading.id`, line 350). -/
def activeEntries (entries : List HeadingEntry) (activeSection : String) : List HeadingEntry :=
  entries.filter (fun h => h.id == activeSection)

/-! ## Page metadata and orchestrator (ArticleView.tsx lines 253-297, 433-455) -/

/-- A page icon: an emoji or a media reference (`pageDetails?.icon`). -/
inductive IconData where
  | emoji (emoji : String)
  | mediaIcon (media : MediaData)
deriving Repr, DecidableEq

/-- A metadata property value: a `files` property holding media references,
or any other property kind (ArticleView.tsx lines 463-477 read only the
`files` kind). -/
inductive PropertyValue where
  | files (files : List MediaData)
  | otherProp
deriving Repr, DecidableEq

/-- Page metadata (`NotionPage`, notionService.ts lines 2-6, as consumed by
the article view: cover, icon and the open-ended property map). -/
structure NotionPage where
  id : String
  url : String
  cover : Option MediaData
  icon : Option IconData
  properties : List (String × PropertyValue)
deriving Repr, DecidableEq

/-- The orchestrator's page-level state: the `blocks`, `pageDetails` and
`loading` `useState` cells (ArticleView.tsx lines 254-256). -/
structure OrchestratorState where
  blocks : List Block
  pageDetails : Option NotionPage
  loading : Bool

/-- A step of `loadPageData` (ArticleView.tsx lines 281-297): `start` is the
entry of the effect (`setLoading(true)`); `settled` is the joint resolution
of `Promise.all([getPageBlocks(..), getPageDetails(..)])`, after which both
results are stored and `setLoading(false)` runs. -/
inductive LoadEvent where
  | start
  | settled (blocksData : List Block) (detailsData : Option NotionPage)

/-- The orchestrator state transition for one load event. -/
def loadStep (s : OrchestratorState) : LoadEvent → OrchestratorState
  | LoadEvent.start => { blocks := s.blocks, pageDetails := s.pageDetails, loading := true }
  | LoadEvent.settled b d => { blocks := b, pageDetails := d, loading := false }

/-- What the content area shows (ArticleView.tsx lines 433-455). -/
inductive ContentView where
  | skeleton
  | contentRoot (fragments : List ViewFragment)
  | emptyNotice

/-- The content body (ArticleView.tsx lines 434-455): skeleton placeholders
while `loading`, else the rendered block list when non-empty, else the
empty-content notice. -/
def articleBody (s : OrchestratorState) : ContentView :=
  if s.loading then ContentView.skeleton
  else if s.blocks.length > 0 then ContentView.contentRoot (renderBlocks s.blocks)
  else ContentView.emptyNotice

/-! ## Content-fetch service (notionService.ts) -/

/-- Whether the first character list starts the second. -/
def leadsWith : List Char → List Char → Bool
  | [], _ => true
  | _ :: _, [] => false
  | a :: as, b :: bs => a == b && leadsWith as bs

/-- Whether the pattern occurs contiguously inside the list. -/
def occursIn (pat : List Char) : List Char → Bool
  | [] => leadsWith pat []
  | b :: bs => leadsWith pat (b :: bs) || occursIn pat bs

/-- JS `String.prototype.includes(pat)`: whether `pat`'s character sequence
occurs contiguously inside `s`'s. -/
def includesSubstr (s pat : String) : Bool :=
  occursIn pat.toList s.toList

/-- The relay response to the block-children request as `getPageBlocks`
reads it: the `response.ok` flag and the parsed `data.results`. -/
structure BlocksResponse where
  ok : Bool
  results : List Block

/-- The relay response to the page-metadata request: the `response.ok` flag
and the parsed page object. -/
structure PageResponse where
  ok : Bool
  page : NotionPage

/-- `getPageBlocks` (notionService.ts lines 91-119) as a function of its
environment: the configured API key (`none` = undefined) and the outcome of
the relay fetch (`Except.error` = a thrown network/parse error). A missing,
empty or placeholder key, a thrown error (the `catch`), and a non-OK
response all return the empty block list; only an OK response yields its
`results`. -/
def getPageBlocks (apiKey : Option String) (response : Except Unit BlocksResponse) :
    List Block :=
  match apiKey with
  | none => []
  | some key =>
    if key = "" || includesSubstr key "PLACEHOLDER" then []
    else
      match response with
      | Except.error _ => []
      | Except.ok r => if !r.ok then [] else r.results

/-- Modelled from the spec: `getPageDetails` is imported by the article view
(ArticleView.tsx line 5) but its definition is not among the source files;
per §6 the page-metadata fetch (`fetchPageMetadata(id) -> PageMetadata`)
returns an empty/default result rather than raising on failure, with the
same key check, relay call and response handling as its sibling
`getPageBlocks`. -/
def getPageDetails (apiKey : Option String) (response : Except Unit PageResponse) :
    Option NotionPage :=
  match apiKey with
  | none => none
  | some key =>
    if key = "" || includesSubstr key "PLACEHOLDER" then none
    else
      match response with
      | Except.error _ => none
      | Except.ok r => if !r.ok then none else some r.page

/-! ## Sample data used by concrete witnesses -/

/-- A rich-text span whose `text.content` and `plain_text` agree, for
concrete instantiations. -/
def mkSpan (annotations : Annotations) (content : String) (href : Option String) :
    RichTextSpan :=
  { annotations := annotations, text := { content := content }, plain_text := content,
    href := href }

/-- A concrete page-metadata value for concrete instantiations. -/
def samplePage : NotionPage :=
  { id := "p", url := "https://example.com/p", cover := none, icon := none, properties := [] }

/-! ## Helper lemmas -/

/-- Joining the empty list of strings gives the empty string. -/
theorem string_join_nil : String.join [] = "" := rfl

/-- When the heading entries carry pairwise distinct identifiers, at most
one of them can match any given `activeSection` value. -/
theorem activeEntries_length_le_one : ∀ (entries : List HeadingEntry) (s : String),
    (entries.map HeadingEntry.id).Nodup → (activeEntries entries s).length ≤ 1 := by
  intro entries s hnd
  induction entries with
  | nil => simp [activeEntries]
  | cons h rest ih =>
    simp only [List.map_cons, List.nodup_cons] at hnd
    by_cases hh : h.id == s
    · have hcons : activeEntries (h :: rest) s = h :: activeEntries rest s := by
        simp [activeEntries, hh]
      rw [hcons]
      have hempty : activeEntries rest s = [] := by
        rw [activeEntries, List.filter_eq_nil_iff]
        intro e he
        have hne : e.id ≠ s := by
          intro hes
          have hid : h.id = s := by simpa using hh
          have hmem : e.id ∈ rest.map HeadingEntry.id :=
            List.mem_map_of_mem HeadingEntry.id he
          rw [hes, ← hid] at hmem
          exact hnd.1 hmem
        simpa using hne
      simp [hempty]
    · have hcons : activeEntries (h :: rest) s = activeEntries rest s := by
        simp [activeEntries, hh]
      rw [hcons]
      exact ih hnd.2

/-! ## Claim theorems -/

/-- C1 (counterexample). The claim asks for one heading entry for *every*
heading block; on the concrete tree holding a single `heading_1` block with
no rich-text spans the extractor emits no entry at all, while the claimed
pre-order enumeration holds exactly one, so the extractor differs from the
claim at this input. -/
theorem C1_counterexample :
  scanHeadings [Block.mk "h" (BlockContent.heading_1 []) []] = [] ∧
  specHeadingPreOrder [Block.mk "h" (BlockContent.heading_1 []) []] =
    [{ id := "h", text := "", level := 1 }] ∧
  scanHeadings [Block.mk "h" (BlockContent.heading_1 []) []] ≠
    specHeadingPreOrder [Block.mk "h" (BlockContent.heading_1 []) []] := by
  refine ⟨?_, ?_, ?_⟩
  · simp [scanHeadings, headingOwn, headingInfo, plainTextJoin, string_join_nil]
  · simp [specHeadingPreOrder, specHeadingOwn, headingInfo, plainTextJoin, string_join_nil]
  · simp [scanHeadings, specHeadingPreOrder, headingOwn, specHeadingOwn, headingInfo,
      plainTextJoin, string_join_nil]

/-- C1 (amended). For every block tree, the heading extractor emits exactly
the depth-first pre-order enumeration of heading entries (anchor identifier
= block identifier, display text = concatenated span contents, level from
the heading kind) restricted to the headings whose concatenated text is
non-empty: nesting at arbitrary depth is covered and the order is exact
pre-order, but empty-text headings are omitted. -/
theorem C1_thm : ∀ (bs : List Block),
    scanHeadings bs = (specHeadingPreOrder bs).filter (fun e => e.text ≠ "") := by
  intro bs
  induction bs using scanHeadings.induct with
  | case1 => simp [scanHeadings, specHeadingPreOrder]
  | case2 i c cs rest ih1 ih2 =>
    simp only [scanHeadings, specHeadingPreOrder, List.filter_append, ih1, ih2]
    congr 1
    rw [headingOwn, specHeadingOwn]
    cases h : headingInfo c with
    | none => simp
    | some p =>
      cases p with
      | mk lvl rt =>
        by_cases ht : plainTextJoin rt = "" <;> simp [ht]

/-- C2. The rich-text formatter is order- and length-preserving: an absent
span sequence yields no output, and on a present sequence the output has
exactly one fragment per input span, the fragment at each index being the
rendering of the span at that index (a link wrapper, where present, is that
span's single fragment). -/
theorem C2_thm :
  renderRichText none = [] ∧
  (∀ (l : List RichTextSpan), (renderRichText (some l)).length = l.length) ∧
  (∀ (l : List RichTextSpan) (i : Nat) (hi : i < l.length),
    (renderRichText (some l))[i]? = some (renderSpan (l.get ⟨i, hi⟩))) := by
  refine ⟨rfl, ?_, ?_⟩
  · intro l; simp [renderRichText]
  · intro l i hi
    simp [renderRichText, List.getElem?_map, List.getElem?_eq_getElem hi, List.get_eq_getElem]

/-- C2 (witness): the shape equations instantiated on a concrete singleton
span sequence. -/
theorem C2_witness :
  (renderRichText (some [mkSpan ⟨true,false,false,false,false,"default"⟩ "hello" none])).length
      = 1 ∧
  (renderRichText (some [mkSpan ⟨true,false,false,false,false,"default"⟩ "hello" none]))[0]? =
    some (renderSpan (mkSpan ⟨true,false,false,false,false,"default"⟩ "hello" none)) :=
  ⟨C2_thm.2.1 _, C2_thm.2.2 _ 0 (by decide)⟩

/-- C3. A span with both the `code` annotation set and a hyperlink present
renders as a link fragment targeting a new browsing context
(`target="_blank"`) that wraps the monospace `code` fragment holding the
span's text: the two wrappings combine, neither suppresses the other. -/
theorem C3_thm : ∀ (t : RichTextSpan) (url : String),
    t.annotations.code = true → t.href = some url →
    renderSpan t = InlineFragment.link url "_blank" "noopener noreferrer"
      (spanStyle t.annotations) (InlineFragment.code t.text.content) := by
  intro t url hc hh
  simp [renderSpan, hc, hh]

/-- C3 (witness): a concrete bold coded link span renders as a new-tab link
wrapping the code fragment. -/
theorem C3_witness :
    renderSpan (mkSpan ⟨true,false,false,false,true,"default"⟩ "x = 1"
        (some "https://example.com")) =
      InlineFragment.link "https://example.com" "_blank" "noopener noreferrer"
        (spanStyle ⟨true,false,false,false,true,"default"⟩) (InlineFragment.code "x = 1") :=
  C3_thm _ "https://example.com" rfl rfl

/-- C4. A `code` block dispatches on the diagram sentinel: with language tag
`mermaid` it mounts the diagram slot with the joined plain text (and so can
never be a labeled source-code block, whatever the content), and with any
other language tag it renders the labeled monospace block showing the tag
and the joined plain text. -/
theorem C4_thm : ∀ (i language : String) (rich_text : List RichTextSpan) (cs : List Block),
    renderBlock (Block.mk i (BlockContent.code language rich_text) cs) =
      (if language = "mermaid" then ViewFragment.mermaidSlot (plainTextJoin rich_text)
       else ViewFragment.codeBlock language (plainTextJoin rich_text)) ∧
    (∀ (lbl txt : String),
      renderBlock (Block.mk i (BlockContent.code "mermaid" rich_text) cs) ≠
        ViewFragment.codeBlock lbl txt) := by
  intro i language rich_text cs
  constructor
  · simp [renderBlock]
  · intro lbl txt
    simp [renderBlock]

/-- C5 (counterexample). On a failing compile the slot's notice text is
`"Diagram preview unavailable"` (capital D), which is not the claimed exact
static text `"diagram preview unavailable"`. -/
theorem C5_counterexample :
  mermaidView (mermaidCompileStep (Except.error "parse error")) =
    MermaidView.notice "Diagram preview unavailable" ∧
  MermaidView.notice "Diagram preview unavailable" ≠
    MermaidView.notice "diagram preview unavailable" :=
  ⟨rfl, by decide⟩

/-- C5 (amended). A failing diagram compile is caught locally (the step
function is total on the error case) and the slot renders exactly the static
notice `"Diagram preview unavailable"` and nothing else, while the rendering
of any surrounding block sequence is the independent per-block map, so prior
and following siblings render normally. -/
theorem C5_thm : ∀ (msg : String),
    mermaidView (mermaidCompileStep (Except.error msg)) =
      MermaidView.notice "Diagram preview unavailable" ∧
    ∀ (pre post : List Block) (b : Block),
      renderBlocks (pre ++ b :: post) =
        renderBlocks pre ++ renderBlock b :: renderBlocks post := by
  intro msg
  constructor
  · rfl
  · intro pre post b
    simp [renderBlocks]

/-- C6. The navigator's state is one anchor identifier replaced wholesale by
every transition (an intersecting observation or a click on an existing
anchor), so after any sequence of transitions at most one heading entry is
active, provided the entries carry pairwise distinct identifiers. -/
theorem C6_thm :
  (∀ (s i : String), spyStep s (SpyEvent.observed i true) = i ∧
    spyStep s (SpyEvent.clicked i true) = i) ∧
  (∀ (entries : List HeadingEntry) (init : String) (events : List SpyEvent),
    (entries.map HeadingEntry.id).Nodup →
    (activeEntries entries (spyRun init events)).length ≤ 1) := by
  constructor
  · intro s i; exact ⟨rfl, rfl⟩
  · intro entries init events hnd
    exact activeEntries_length_le_one entries _ hnd

/-- C6 (witness): a concrete two-entry outline and a two-event trace leave
at most one active entry. -/
theorem C6_witness :
  spyStep "" (SpyEvent.observed "a" true) = "a" ∧
  (activeEntries [⟨"a", "Intro", 1⟩, ⟨"b", "Details", 2⟩]
    (spyRun "" [SpyEvent.observed "a" true, SpyEvent.clicked "b" true])).length ≤ 1 :=
  ⟨(C6_thm.1 "" "a").1, C6_thm.2 _ "" _ (by decide)⟩

/-- C7. While the loading flag is true the content area is exactly the
skeleton placeholder whatever the stored tree; entering the load effect sets
the flag true leaving the stored data untouched; and the joint settling of
the two requests stores both results and clears the flag in one transition,
so no half-populated tree is ever presented. -/
theorem C7_thm :
  (∀ (b : List Block) (d : Option NotionPage),
    articleBody { blocks := b, pageDetails := d, loading := true } = ContentView.skeleton) ∧
  (∀ (s : OrchestratorState),
    loadStep s LoadEvent.start =
      { blocks := s.blocks, pageDetails := s.pageDetails, loading := true }) ∧
  (∀ (s : OrchestratorState) (b : List Block) (d : Option NotionPage),
    loadStep s (LoadEvent.settled b d) =
      { blocks := b, pageDetails := d, loading := false }) := by
  refine ⟨?_, ?_, ?_⟩
  · intro b d; simp [articleBody]
  · intro s; rfl
  · intro s b d; rfl

/-- C8. Both content-client fetches return an empty/default result rather
than raising on every failure mode: a missing key, a placeholder key, a
thrown network/parse error, and a non-OK response each yield the empty block
list respectively the absent page metadata. -/
theorem C8_thm :
  ∀ (key : String) (respB : Except Unit BlocksResponse) (respP : Except Unit PageResponse)
    (r : BlocksResponse) (p : PageResponse),
  getPageBlocks none respB = [] ∧
  getPageDetails none respP = none ∧
  (includesSubstr key "PLACEHOLDER" = true →
    getPageBlocks (some key) respB = [] ∧ getPageDetails (some key) respP = none) ∧
  getPageBlocks (some key) (Except.error ()) = [] ∧
  getPageDetails (some key) (Except.error ()) = none ∧
  (r.ok = false → getPageBlocks (some key) (Except.ok r) = []) ∧
  (p.ok = false → getPageDetails (some key) (Except.ok p) = none) := by
  intro key respB respP r p
  refine ⟨rfl, rfl, ?_, ?_, ?_, ?_, ?_⟩
  · intro hk
    constructor
    · cases respB <;> simp [getPageBlocks, hk]
    · cases respP <;> simp [getPageDetails, hk]
  · by_cases hk : (key = "" || includesSubstr key "PLACEHOLDER") = true <;>
      simp [getPageBlocks, hk]
  · by_cases hk : (key = "" || includesSubstr key "PLACEHOLDER") = true <;>
      simp [getPageDetails, hk]
  · intro hr
    by_cases hk : (key = "" || includesSubstr key "PLACEHOLDER") = true <;>
      simp [getPageBlocks, hk, hr]
  · intro hp
    by_cases hk : (key = "" || includesSubstr key "PLACEHOLDER") = true <;>
      simp [getPageDetails, hk, hp]

/-- C8 (witness): a placeholder key and a non-OK response each produce the
empty/default results on concrete inputs. -/
theorem C8_witness :
  (getPageBlocks (some "aPLACEHOLDERb") (Except.ok { ok := true, results := [] }) = [] ∧
   getPageDetails (some "aPLACEHOLDERb") (Except.ok { ok := true, page := samplePage }) =
     none) ∧
  getPageBlocks (some "realkey") (Except.ok { ok := false, results := [] }) = [] ∧
  getPageDetails (some "realkey") (Except.ok { ok := false, page := samplePage }) = none :=
  ⟨(C8_thm "aPLACEHOLDERb" (Except.ok { ok := true, results := [] })
      (Except.ok { ok := true, page := samplePage })
      { ok := true, results := [] } { ok := true, page := samplePage }).2.2.1 (by decide),
   (C8_thm "realkey" (Except.error ()) (Except.error ())
      { ok := false, results := [] } { ok := false, page := samplePage }).2.2.2.2.2.1 rfl,
   (C8_thm "realkey" (Except.error ()) (Except.error ())
      { ok := false, results := [] } { ok := false, page := samplePage }).2.2.2.2.2.2 rfl⟩

/-- C9. Every entry the heading extractor emits has non-empty display text,
and a heading block whose concatenated plain text is empty contributes no
entry of its own while its children are still scanned in place. -/
theorem C9_thm :
  (∀ (bs : List Block) (e : HeadingEntry), e ∈ scanHeadings bs → e.text ≠ "") ∧
  (∀ (i : String) (c : BlockContent) (cs rest : List Block) (lvl : Nat)
     (rich_text : List RichTextSpan),
    headingInfo c = some (lvl, rich_text) → plainTextJoin rich_text = "" →
    scanHeadings (Block.mk i c cs :: rest) = scanHeadings cs ++ scanHeadings rest) := by
  constructor
  · intro bs
    induction bs using scanHeadings.induct with
    | case1 => intro e he; simp [scanHeadings] at he
    | case2 i c cs rest ih1 ih2 =>
      intro e he
      simp only [scanHeadings, List.mem_append] at he
      rcases he with (he | he) | he
      · rw [headingOwn] at he
        cases hinfo : headingInfo c with
        | none => rw [hinfo] at he; simp at he
        | some p =>
          rw [hinfo] at he
          cases p with
          | mk lvl rt =>
            by_cases ht : plainTextJoin rt = ""
            · simp [ht] at he
            · simp [ht] at he
              rw [he]
              simp [ht]
      · exact ih1 e he
      · exact ih2 e he
  · intro i c cs rest lvl rich_text hinfo htext
    simp [scanHeadings, headingOwn, hinfo, htext]

/-- C9 (witness): a concrete emitted entry has non-empty text, and an
empty-text heading with a nested heading child contributes exactly its
children's scan. -/
theorem C9_witness :
  ({ id := "k", text := "D", level := 2 } : HeadingEntry).text ≠ "" ∧
  scanHeadings [Block.mk "h" (BlockContent.heading_1 [])
      [Block.mk "k" (BlockContent.heading_2 [mkSpan ⟨false,false,false,false,false,"default"⟩
        "D" none]) []]] =
    scanHeadings [Block.mk "k" (BlockContent.heading_2
      [mkSpan ⟨false,false,false,false,false,"default"⟩ "D" none]) []] ++ scanHeadings [] :=
  ⟨C9_thm.1 [Block.mk "k" (BlockContent.heading_2
      [mkSpan ⟨false,false,false,false,false,"default"⟩ "D" none]) []]
    { id := "k", text := "D", level := 2 }
    (by simp [scanHeadings, headingOwn, headingInfo, plainTextJoin, mkSpan]; decide),
   C9_thm.2 "h" (BlockContent.heading_1 []) _ [] 1 [] rfl rfl⟩

/-- C10. In the computed span style, underline takes precedence: with the
underline annotation set the text decoration is `underline` whatever the
strikethrough flag, strikethrough styling appears only when underline is
unset, and the two decorations never combine. -/
theorem C10_thm : ∀ (a : Annotations),
    (a.underline = true → (spanStyle a).textDecoration = "underline") ∧
    (a.underline = false → a.strikethrough = true →
      (spanStyle a).textDecoration = "line-through") ∧
    (spanStyle a).textDecoration ≠ "underline line-through" := by
  intro a
  refine ⟨?_, ?_, ?_⟩
  · intro h; simp [spanStyle, h]
  · intro h hs; simp [spanStyle, h, hs]
  · rcases hu : a.underline <;> rcases hs : a.strikethrough <;> simp [spanStyle, hu, hs]

/-- C10 (witness): with both decorations requested only underline is
applied; with underline unset strikethrough is applied. -/
theorem C10_witness :
  (spanStyle ⟨false,false,true,true,false,"default"⟩).textDecoration = "underline" ∧
  (spanStyle ⟨false,false,true,false,false,"default"⟩).textDecoration = "line-through" :=
  ⟨(C10_thm _).1 rfl, (C10_thm _).2.1 rfl rfl⟩
